import Mathlib

/-!
Verification of the spaced-repetition core of `chinese_flashcard_app.py`.

The app stores one row per learned character in a pandas dataframe persisted
as CSV.  We embed a dataframe row as the structure `Record`, dates as integer
day numbers (`Int`), and an absent (`NaN`/`NaT`) learned date as `none`.
The process-wide global `TODAY` is threaded as an explicit `today` parameter
of the scheduler functions.
-/

namespace LearnChinese

/-- Embeds one row of the character dataframe.  Columns (in CSV order):
`set_nr`, `character`, `pinyin`, `example`, `learned_date`, `correct`,
`wrong`.  `learned_date` is `none` when the cell is `NaN`/`NaT`.
The Python keyword-clash-free field name `example` is rendered `example'`. -/
structure Record where
  set_nr : Int
  character : String
  pinyin : String
  example' : String
  learned_date : Option Int
  correct : Int
  wrong : Int
deriving DecidableEq

/-- REVIEW_STEPS = [0, 1, 2, 4, 7, 15, 30, 90, 180] (line 7 of the source). -/
def REVIEW_STEPS : List Nat := [0, 1, 2, 4, 7, 15, 30, 90, 180]

/-- Embeds the per-row test of the loop in `get_due_characters`
(lines 28-36): rows with `pd.isna(row["learned_date"])` are skipped,
otherwise the row is due when `learned + step == TODAY` for some ladder
step. -/
def isDueRow (r : Record) (today : Int) : Bool :=
  match r.learned_date with
  | none => false
  | some l => REVIEW_STEPS.any (fun s => l + (s : Int) == today)

/-- The `due_today` list built by the loop of `get_due_characters`:
the glyphs of the rows that are due. -/
def dueGlyphs (df : List Record) (today : Int) : List String :=
  (df.filter (fun r => isDueRow r today)).map (fun r => r.character)

/-- Embeds `get_due_characters` (lines 26-37): the final result is
`df[df["character"].isin(due_today)]`, i.e. the rows whose glyph occurs in
the `due_today` list - selection is by glyph, not by row identity. -/
def get_due_characters (df : List Record) (today : Int) : List Record :=
  df.filter (fun r => (dueGlyphs df today).contains r.character)

/-- Embeds the cell logic of `build_review_table` (lines 55-70) for the
column of ladder day `day` of a row with learned date `l` and tallies
`c`/`w`: day 1 shows "✅" iff any interaction happened, else "--";
other days: "✅"/"❌" by interaction when the review date is past,
"❌" when the review date is today, "--" when it is in the future. -/
def reviewCell (today l c w : Int) (day : Nat) : String :=
  if day = 1 then
    if c > 0 ∨ w > 0 then "✅" else "--"
  else if l + (day : Int) < today then
    if c > 0 ∨ w > 0 then "✅" else "❌"
  else if l + (day : Int) = today then "❌"
  else "--"

/-- One output row of the review-plan table: the identifying fields plus one
labelled cell per ladder day `d > 0`. -/
structure PlanRow where
  set_nr : Int
  character : String
  learned_date : Int
  correct : Int
  wrong : Int
  cells : List (Nat × String)
deriving DecidableEq

/-- Embeds `build_review_table` (lines 40-74).  The Python computes
`row["learned_date"] + timedelta` for every row, which raises on a missing
date; we model that by returning `none` for the whole table in that case. -/
def build_review_table (df : List Record) (today : Int) : Option (List PlanRow) :=
  df.mapM (fun r =>
    (r.learned_date).map (fun l =>
      { set_nr := r.set_nr
        character := r.character
        learned_date := l
        correct := r.correct
        wrong := r.wrong
        cells := (REVIEW_STEPS.drop 1).map
          (fun d => (d, reviewCell today l r.correct r.wrong d)) }))

/-- A flashcard interaction: the "✅ Right" or "❌ Wrong" button. -/
inductive Interaction where
  | right
  | wrong
deriving DecidableEq

/-- Embeds the Right/Wrong button handlers (lines 244-257):
`df.at[idx, "correct"] += 1` resp. `df.at[idx, "wrong"] += 1`. -/
def applyInteraction (r : Record) : Interaction → Record
  | .right => { r with correct := r.correct + 1 }
  | .wrong => { r with wrong := r.wrong + 1 }

/-- Applies a sequence of interactions to one record, in order. -/
def applyInteractions (r : Record) (acts : List Interaction) : Record :=
  acts.foldl applyInteraction r

/-- Number of "Right" interactions in a sequence. -/
def countRight : List Interaction → Int
  | [] => 0
  | .right :: rest => countRight rest + 1
  | .wrong :: rest => countRight rest

/-- Number of "Wrong" interactions in a sequence. -/
def countWrong : List Interaction → Int
  | [] => 0
  | .right :: rest => countWrong rest
  | .wrong :: rest => countWrong rest + 1

/-- Embeds the `add_new_set_form` submit handler (lines 114-128): with a
non-empty glyph (`if new_char:`) the row is appended with zeroed tallies and
saved; with an empty glyph nothing is appended. -/
def addNewCharacter (df : List Record) (new_set_nr : Int) (new_set_date : Int)
    (new_char new_pinyin new_example : String) : List Record :=
  if new_char = "" then df
  else df ++ [{ set_nr := new_set_nr
                character := new_char
                pinyin := new_pinyin
                example' := new_example
                learned_date := some new_set_date
                correct := 0
                wrong := 0 }]

/-- Embeds the Delete Set handler (lines 187-196):
`df = df[df["set_nr"] != set_to_delete]`. -/
def deleteSet (df : List Record) (set_to_delete : Int) : List Record :=
  df.filter (fun r => r.set_nr != set_to_delete)

/-- A typed CSV cell.  The textual serialisation that pandas performs is
modelled at the value level: an integer cell, a text cell, a date cell
(carrying the calendar day number) or a missing value (`NaN`/`NaT`). -/
inductive Cell where
  | int (n : Int)
  | str (s : String)
  | date (d : Int)
  | na
deriving DecidableEq

/-- A stored table: a header of column names and one positional cell list per
row, the shape of a CSV file as pandas reads it. -/
structure Table where
  cols : List String
  rows : List (List Cell)
deriving DecidableEq

/-- The seven expected columns, in the order the app writes them. -/
def allCols : List String :=
  ["set_nr", "character", "pinyin", "example", "learned_date", "correct", "wrong"]

/-- Serialises one record to a CSV row in `allCols` order. -/
def recordToRow (r : Record) : List Cell :=
  [Cell.int r.set_nr, Cell.str r.character, Cell.str r.pinyin,
   Cell.str r.example',
   (match r.learned_date with
    | some d => Cell.date d
    | none => Cell.na),
   Cell.int r.correct, Cell.int r.wrong]

/-- Embeds `save_data` (lines 22-23): `df.to_csv(...)` writes every column
of the in-memory dataframe, one row per record. -/
def save_data (df : List Record) : Table :=
  { cols := allCols, rows := df.map recordToRow }

/-- Embeds `pd.to_datetime(df["learned_date"]).dt.date` on one cell: a
serialised date parses back to the same calendar day, `NaN` stays missing
(`NaT`), anything else is left untouched by this model. -/
def toDatetimeCell : Cell → Cell
  | Cell.date d => Cell.date d
  | Cell.na => Cell.na
  | c => c

/-- Embeds `load_data` (lines 11-19).  `none` as input stands for an absent
storage file (`FileNotFoundError`), which yields the empty seven-column
frame; a present file has its `learned_date` column normalised to dates
(a missing `learned_date` column raises, modelled as `none` output), then
a missing `set_nr` column is backfilled with 0.  No other column is
backfilled. -/
def load_data (file : Option Table) : Option Table :=
  match file with
  | none => some { cols := allCols, rows := [] }
  | some t =>
    match t.cols.findIdx? (fun c => c == "learned_date") with
    | none => none
    | some i =>
      let t1 : Table :=
        { cols := t.cols
          rows := t.rows.map (fun row => row.set i (toDatetimeCell (row.getD i Cell.na))) }
      some (if t1.cols.contains "set_nr" then t1
            else { cols := t1.cols ++ ["set_nr"], rows := t1.rows.map (fun row => row ++ [Cell.int 0]) })

/-- Reads the cell of the named column out of a positional row. -/
def getCol (cols : List String) (row : List Cell) (c : String) : Cell :=
  match cols.findIdx? (fun x => x == c) with
  | some i => row.getD i Cell.na
  | none => Cell.na

/-- Deserialises one stored row back into a record; fails when a typed field
has the wrong shape. -/
def rowToRecord (cols : List String) (row : List Cell) : Option Record :=
  match getCol cols row "set_nr", getCol cols row "character",
        getCol cols row "pinyin", getCol cols row "example",
        getCol cols row "learned_date",
        getCol cols row "correct", getCol cols row "wrong" with
  | Cell.int sn, Cell.str ch, Cell.str py, Cell.str ex, Cell.date d,
    Cell.int co, Cell.int wr =>
      some { set_nr := sn, character := ch, pinyin := py, example' := ex,
             learned_date := some d, correct := co, wrong := wr }
  | Cell.int sn, Cell.str ch, Cell.str py, Cell.str ex, Cell.na,
    Cell.int co, Cell.int wr =>
      some { set_nr := sn, character := ch, pinyin := py, example' := ex,
             learned_date := none, correct := co, wrong := wr }
  | _, _, _, _, _, _, _ => none

/-- Deserialises every stored row, failing if any row fails. -/
def rowsToRecords (cols : List String) : List (List Cell) → Option (List Record)
  | [] => some []
  | row :: rest =>
    match rowToRecord cols row, rowsToRecords cols rest with
    | some r, some rs => some (r :: rs)
    | _, _ => none

/-- The records obtained by loading a stored file and deserialising its
rows. -/
def loadedRecords (file : Option Table) : Option (List Record) :=
  match load_data file with
  | none => none
  | some t => rowsToRecords t.cols t.rows

/-- Sample record: glyph "a", learned on day 0, no interactions yet. -/
def sampleDue : Record :=
  { set_nr := 1, character := "a", pinyin := "", example' := "",
    learned_date := some 0, correct := 0, wrong := 0 }

/-- Sample record sharing glyph "a" but learned on day 100. -/
def sampleLate : Record :=
  { set_nr := 1, character := "a", pinyin := "", example' := "",
    learned_date := some 100, correct := 0, wrong := 0 }

/-- Sample record sharing glyph "a" with no learned date. -/
def sampleNoDate : Record :=
  { set_nr := 1, character := "a", pinyin := "", example' := "",
    learned_date := none, correct := 0, wrong := 0 }

/-- Sample record with a distinct glyph "z", learned on day 50. -/
def sampleOther : Record :=
  { set_nr := 2, character := "z", pinyin := "", example' := "",
    learned_date := some 50, correct := 0, wrong := 0 }

lemma mem_get_due_iff (df : List Record) (today : Int) (r : Record) :
    r ∈ get_due_characters df today ↔
      r ∈ df ∧ (dueGlyphs df today).contains r.character = true := by
  simp [get_due_characters, List.mem_filter]

lemma contains_dueGlyphs_iff (df : List Record) (today : Int) (g : String) :
    (dueGlyphs df today).contains g = true ↔
      ∃ r ∈ df, isDueRow r today = true ∧ r.character = g := by
  rw [List.elem_iff]
  simp only [dueGlyphs, List.mem_map, List.mem_filter]
  constructor
  · rintro ⟨r, ⟨hr, hdue⟩, hg⟩
    exact ⟨r, hr, hdue, hg⟩
  · rintro ⟨r, hr, hdue, hg⟩
    exact ⟨r, ⟨hr, hdue⟩, hg⟩

lemma not_mem_due_of_glyph_clear (df : List Record) (today : Int) (r : Record)
    (h : ∀ r2 ∈ df, r2.character = r.character → isDueRow r2 today = false) :
    r ∉ get_due_characters df today := by
  intro hin
  obtain ⟨-, hc⟩ := (mem_get_due_iff df today r).1 hin
  obtain ⟨r2, hr2, hdue2, hgl⟩ := (contains_dueGlyphs_iff df today r.character).1 hc
  rw [h r2 hr2 hgl] at hdue2
  exact Bool.false_ne_true hdue2

lemma isDueRow_eq_true (r : Record) (today l : Int) (hld : r.learned_date = some l)
    (s : Nat) (hs : s ∈ REVIEW_STEPS) (hts : today = l + (s : Int)) :
    isDueRow r today = true := by
  simp only [isDueRow, hld, List.any_eq_true, beq_iff_eq]
  exact ⟨s, hs, hts.symm⟩

/-- C10: the due-set query selects rows by glyph, not by row identity:
any record sharing the glyph of a due record is itself returned. -/
theorem C10_glyph_selection (df : List Record) (today : Int) (r1 r2 : Record)
    (h1 : r1 ∈ df) (h2 : r2 ∈ df) (hg : r2.character = r1.character)
    (hdue : isDueRow r1 today = true) :
    r2 ∈ get_due_characters df today := by
  refine (mem_get_due_iff df today r2).2 ⟨h2, ?_⟩
  exact (contains_dueGlyphs_iff df today r2.character).2 ⟨r1, h1, hdue, hg.symm⟩

/-- C10 witness: a record with no learned date is returned because another
record with the same glyph is due. -/
theorem C10_witness :
    sampleDue ∈ [sampleDue, sampleNoDate] ∧
    sampleNoDate ∈ [sampleDue, sampleNoDate] ∧
    sampleNoDate.character = sampleDue.character ∧
    isDueRow sampleDue 0 = true ∧
    sampleNoDate ∈ get_due_characters [sampleDue, sampleNoDate] 0 :=
  ⟨by decide, by decide, rfl, by decide,
   C10_glyph_selection [sampleDue, sampleNoDate] 0 sampleDue sampleNoDate
     (by decide) (by decide) rfl (by decide)⟩

/-- C1 counterexample: the record learned on day 100 is not due on day 0
(no ladder step matches), yet it is included in the due set because it
shares the glyph "a" with a record that is due. -/
theorem C1_counterexample :
    sampleLate.learned_date = some 100 ∧
    (∀ s ∈ REVIEW_STEPS, (0 : Int) ≠ 100 + (s : Int)) ∧
    sampleLate ∈ get_due_characters [sampleDue, sampleLate] 0 := by
  decide

/-- C1 (amended): a record with `learned_date = L` is included in the due
set whenever `T = L + s` for a ladder step `s`; it is excluded when no
ladder step matches, provided no other record in the collection with the
same glyph is itself due on `T`. -/
theorem C1_due_inclusion_exclusion (df : List Record) (today : Int)
    (r : Record) (l : Int) (hmem : r ∈ df) (hld : r.learned_date = some l) :
    ((∃ s ∈ REVIEW_STEPS, today = l + (s : Int)) →
      r ∈ get_due_characters df today) ∧
    ((∀ s ∈ REVIEW_STEPS, today ≠ l + (s : Int)) →
      (∀ r2 ∈ df, r2.character = r.character → isDueRow r2 today = false) →
      r ∉ get_due_characters df today) := by
  constructor
  · rintro ⟨s, hs, hts⟩
    refine (mem_get_due_iff df today r).2 ⟨hmem, ?_⟩
    exact (contains_dueGlyphs_iff df today r.character).2
      ⟨r, hmem, isDueRow_eq_true r today l hld s hs hts, rfl⟩
  · intro _ hglyph
    exact not_mem_due_of_glyph_clear df today r hglyph

/-- C1 witness: the record learned on day 0 is due on day 1 (ladder step 1);
the record with glyph "z" learned on day 50 is excluded on day 1. -/
theorem C1_witness :
    ((∃ s ∈ REVIEW_STEPS, (1 : Int) = 0 + (s : Int)) →
      sampleDue ∈ get_due_characters [sampleDue, sampleOther] 1) ∧
    ((∀ s ∈ REVIEW_STEPS, (1 : Int) ≠ 50 + (s : Int)) →
      (∀ r2 ∈ [sampleDue, sampleOther],
        r2.character = sampleOther.character → isDueRow r2 1 = false) →
      sampleOther ∉ get_due_characters [sampleDue, sampleOther] 1) ∧
    (∃ s ∈ REVIEW_STEPS, (1 : Int) = 0 + (s : Int)) ∧
    (∀ s ∈ REVIEW_STEPS, (1 : Int) ≠ 50 + (s : Int)) :=
  ⟨(C1_due_inclusion_exclusion [sampleDue, sampleOther] 1 sampleDue 0
      (by decide) rfl).1,
   (C1_due_inclusion_exclusion [sampleDue, sampleOther] 1 sampleOther 50
      (by decide) rfl).2,
   by decide, by decide⟩

/-- C4 counterexample: the record with no learned date is nevertheless
included in the due set on day 0, because it shares the glyph "a" with a
record that is due. -/
theorem C4_counterexample :
    sampleNoDate.learned_date = none ∧
    sampleNoDate ∈ get_due_characters [sampleDue, sampleNoDate] 0 := by
  decide

/-- C4 (amended): a record with an absent learned date never makes itself
due (the skip condition, not an error), and is excluded from the due set
provided no other record in the collection with the same glyph is due. -/
theorem C4_missing_date_skip (df : List Record) (today : Int) (r : Record)
    (_hmem : r ∈ df) (hld : r.learned_date = none) :
    isDueRow r today = false ∧
    ((∀ r2 ∈ df, r2.character = r.character → isDueRow r2 today = false) →
      r ∉ get_due_characters df today) := by
  constructor
  · simp [isDueRow, hld]
  · exact not_mem_due_of_glyph_clear df today r

/-- C4 witness: alone in the collection, the record with no learned date is
never due and never returned. -/
theorem C4_witness :
    isDueRow sampleNoDate 7 = false ∧
    ((∀ r2 ∈ [sampleNoDate],
        r2.character = sampleNoDate.character → isDueRow r2 7 = false) →
      sampleNoDate ∉ get_due_characters [sampleNoDate] 7) :=
  C4_missing_date_skip [sampleNoDate] 7 sampleNoDate (by decide) rfl

/-- C2 counterexample: ladder day 2, review date equal to today, one
"correct" interaction recorded.  The claim calls this cell "completed"
("✅"); the code shows "❌" (the `review_date == TODAY` branch ignores the
tallies). -/
theorem C2_counterexample :
    (2 : Nat) ∈ REVIEW_STEPS ∧ (1 : Nat) < 2 ∧
    (((0 : Int) + ((2 : Nat) : Int) < 2 ∨ (0 : Int) + ((2 : Nat) : Int) = 2) ∧
      ((1 : Int) > 0 ∨ (0 : Int) > 0)) ∧
    reviewCell 2 0 1 0 2 = "❌" ∧ ¬ reviewCell 2 0 1 0 2 = "✅" := by
  decide

/-- C2 (amended): for a ladder day `d > 1`, the cell shows "✅" when the
review date is strictly in the past and some interaction happened; "❌"
when the review date is past-or-today with no interaction, and also
whenever the review date equals today (even with interactions); "--" when
the review date is in the future. -/
theorem C2_plan_cells (today l c w : Int) (d : Nat)
    (_hd : d ∈ REVIEW_STEPS) (h1 : 1 < d) :
    (l + (d : Int) < today → (c > 0 ∨ w > 0) → reviewCell today l c w d = "✅") ∧
    (l + (d : Int) ≤ today → c = 0 → w = 0 → reviewCell today l c w d = "❌") ∧
    (l + (d : Int) = today → reviewCell today l c w d = "❌") ∧
    (today < l + (d : Int) → reviewCell today l c w d = "--") := by
  have hne : ¬ d = 1 := by omega
  refine ⟨fun hlt hcw => ?_, fun hle hc hw => ?_, fun heq => ?_, fun hgt => ?_⟩
  · rw [reviewCell, if_neg hne, if_pos hlt, if_pos hcw]
  · rcases lt_or_eq_of_le hle with hlt | heq
    · rw [reviewCell, if_neg hne, if_pos hlt, if_neg (by omega)]
    · rw [reviewCell, if_neg hne, if_neg (by omega), if_pos heq]
  · rw [reviewCell, if_neg hne, if_neg (by omega), if_pos heq]
  · rw [reviewCell, if_neg hne, if_neg (by omega), if_neg (by omega)]

/-- C2 witness: ladder day 2, learned day 0, today day 10, one "correct"
interaction: the strictly-past cell is "✅", and for today day 2 the cell is
"❌". -/
theorem C2_witness :
    (((0 : Int) + ((2 : Nat) : Int) < 10 → ((1 : Int) > 0 ∨ (0 : Int) > 0) →
        reviewCell 10 0 1 0 2 = "✅") ∧
      ((0 : Int) + ((2 : Nat) : Int) ≤ 10 → (1 : Int) = 0 → (0 : Int) = 0 →
        reviewCell 10 0 1 0 2 = "❌") ∧
      ((0 : Int) + ((2 : Nat) : Int) = 10 → reviewCell 10 0 1 0 2 = "❌") ∧
      ((10 : Int) < 0 + ((2 : Nat) : Int) → reviewCell 10 0 1 0 2 = "--")) ∧
    reviewCell 10 0 1 0 2 = "✅" :=
  ⟨C2_plan_cells 10 0 1 0 2 (by decide) (by decide),
   (C2_plan_cells 10 0 1 0 2 (by decide) (by decide)).1 (by decide) (by decide)⟩

/-- C3: the Day-1 cell shows "✅" exactly when some interaction happened
(`correct > 0` or `wrong > 0`) and "--" otherwise, for every relation
between `learned_date + 1` and today. -/
theorem C3_day1_cell (today l c w : Int) :
    (reviewCell today l c w 1 = "✅" ↔ (c > 0 ∨ w > 0)) ∧
    (c = 0 → w = 0 → reviewCell today l c w 1 = "--") := by
  constructor
  · constructor
    · intro heq
      by_contra hcw
      rw [reviewCell, if_pos rfl, if_neg hcw] at heq
      exact absurd heq (by decide)
    · intro hcw
      rw [reviewCell, if_pos rfl, if_pos hcw]
  · intro hc hw
    rw [reviewCell, if_pos rfl, if_neg (by omega)]

/-- C3 witness: with one "correct" interaction the Day-1 cell is "✅"; with
no interactions it is "--", at the same calendar data. -/
theorem C3_witness :
    ((reviewCell 5 0 1 0 1 = "✅" ↔ ((1 : Int) > 0 ∨ (0 : Int) > 0)) ∧
      ((1 : Int) = 0 → (0 : Int) = 0 → reviewCell 5 0 1 0 1 = "--")) ∧
    ((reviewCell 5 0 0 0 1 = "✅" ↔ ((0 : Int) > 0 ∨ (0 : Int) > 0)) ∧
      ((0 : Int) = 0 → (0 : Int) = 0 → reviewCell 5 0 0 0 1 = "--")) :=
  ⟨C3_day1_cell 5 0 1 0, C3_day1_cell 5 0 0 0⟩

lemma applyInteractions_correct (acts : List Interaction) :
    ∀ r : Record, (applyInteractions r acts).correct = r.correct + countRight acts := by
  induction acts with
  | nil => intro r; simp [applyInteractions, countRight]
  | cons i rest ih =>
    intro r
    have hstep : applyInteractions r (i :: rest) =
        applyInteractions (applyInteraction r i) rest := rfl
    cases i
    · rw [hstep, ih]
      simp only [applyInteraction, countRight]
      omega
    · rw [hstep, ih]
      simp only [applyInteraction, countRight]

lemma applyInteractions_wrong (acts : List Interaction) :
    ∀ r : Record, (applyInteractions r acts).wrong = r.wrong + countWrong acts := by
  induction acts with
  | nil => intro r; simp [applyInteractions, countWrong]
  | cons i rest ih =>
    intro r
    have hstep : applyInteractions r (i :: rest) =
        applyInteractions (applyInteraction r i) rest := rfl
    cases i
    · rw [hstep, ih]
      simp only [applyInteraction, countWrong]
    · rw [hstep, ih]
      simp only [applyInteraction, countWrong]
      omega

/-- C5: starting from zeroed tallies, any interleaving of Right and Wrong
button presses leaves `correct` equal to the number of Rights and `wrong`
equal to the number of Wrongs; each press bumps exactly one counter by 1
and leaves the other alone, and neither counter ever decreases. -/
theorem C5_tally_counts :
    (∀ (r : Record) (acts : List Interaction), r.correct = 0 → r.wrong = 0 →
      (applyInteractions r acts).correct = countRight acts ∧
      (applyInteractions r acts).wrong = countWrong acts) ∧
    (∀ r : Record,
      ((applyInteraction r Interaction.right).correct = r.correct + 1 ∧
        (applyInteraction r Interaction.right).wrong = r.wrong) ∧
      ((applyInteraction r Interaction.wrong).wrong = r.wrong + 1 ∧
        (applyInteraction r Interaction.wrong).correct = r.correct)) ∧
    (∀ (r : Record) (i : Interaction),
      r.correct ≤ (applyInteraction r i).correct ∧
      r.wrong ≤ (applyInteraction r i).wrong) := by
  refine ⟨fun r acts hc hw => ?_, fun r => ?_, fun r i => ?_⟩
  · rw [applyInteractions_correct, applyInteractions_wrong, hc, hw]
    exact ⟨by omega, by omega⟩
  · exact ⟨⟨rfl, rfl⟩, ⟨rfl, rfl⟩⟩
  · cases i
    · exact ⟨by simp [applyInteraction], le_refl _⟩
    · exact ⟨le_refl _, by simp [applyInteraction]⟩

/-- C5 witness: from zeroed tallies, the sequence Right, Wrong, Right
yields `correct = 2` and `wrong = 1`. -/
theorem C5_witness :
    sampleDue.correct = 0 ∧ sampleDue.wrong = 0 ∧
    ((applyInteractions sampleDue
        [Interaction.right, Interaction.wrong, Interaction.right]).correct =
      countRight [Interaction.right, Interaction.wrong, Interaction.right] ∧
     (applyInteractions sampleDue
        [Interaction.right, Interaction.wrong, Interaction.right]).wrong =
      countWrong [Interaction.right, Interaction.wrong, Interaction.right]) ∧
    countRight [Interaction.right, Interaction.wrong, Interaction.right] = 2 ∧
    countWrong [Interaction.right, Interaction.wrong, Interaction.right] = 1 :=
  ⟨rfl, rfl,
   C5_tally_counts.1 sampleDue
     [Interaction.right, Interaction.wrong, Interaction.right] rfl rfl,
   rfl, rfl⟩

/-- C6: creating a character with an empty glyph changes nothing; with a
non-empty glyph exactly one record is appended, carrying the supplied
fields and zeroed tallies. -/
theorem C6_add_character (df : List Record) (sn dt : Int) (ch py ex : String) :
    (ch = "" → addNewCharacter df sn dt ch py ex = df) ∧
    (ch ≠ "" →
      addNewCharacter df sn dt ch py ex =
        df ++ [{ set_nr := sn, character := ch, pinyin := py, example' := ex,
                 learned_date := some dt, correct := 0, wrong := 0 }] ∧
      (addNewCharacter df sn dt ch py ex).length = df.length + 1) := by
  constructor
  · intro h
    rw [addNewCharacter, if_pos h]
  · intro h
    rw [addNewCharacter, if_neg h]
    exact ⟨rfl, by simp⟩

/-- C6 witness: the empty glyph is rejected on a one-record collection;
the glyph "好" is appended with the supplied fields. -/
theorem C6_witness :
    (("" : String) = "" → addNewCharacter [sampleDue] 3 9 "" "p" "e" = [sampleDue]) ∧
    (("好" : String) ≠ "" →
      addNewCharacter [sampleDue] 3 9 "好" "hǎo" "你好" =
        [sampleDue] ++
          [{ set_nr := 3, character := "好", pinyin := "hǎo", example' := "你好",
             learned_date := some 9, correct := 0, wrong := 0 }] ∧
      (addNewCharacter [sampleDue] 3 9 "好" "hǎo" "你好").length =
        [sampleDue].length + 1) :=
  ⟨(C6_add_character [sampleDue] 3 9 "" "p" "e").1,
   (C6_add_character [sampleDue] 3 9 "好" "hǎo" "你好").2⟩

/-- C7: deleting set `k` keeps exactly the records whose `set_nr` differs
from `k`, as a sublist of the original collection (so the kept records are
unchanged and in their original order). -/
theorem C7_delete_set (df : List Record) (k : Int) (r : Record) :
    (r ∈ deleteSet df k ↔ (r ∈ df ∧ r.set_nr ≠ k)) ∧
    List.Sublist (deleteSet df k) df := by
  constructor
  · simp [deleteSet, List.mem_filter]
  · exact List.filter_sublist df

/-- C7 witness: deleting set 1 from a two-record collection keeps exactly
the record of set 2. -/
theorem C7_witness :
    ((sampleOther ∈ deleteSet [sampleDue, sampleOther] 1 ↔
        (sampleOther ∈ [sampleDue, sampleOther] ∧ sampleOther.set_nr ≠ 1)) ∧
      List.Sublist (deleteSet [sampleDue, sampleOther] 1) [sampleDue, sampleOther]) ∧
    deleteSet [sampleDue, sampleOther] 1 = [sampleOther] :=
  ⟨C7_delete_set [sampleDue, sampleOther] 1 sampleOther, by decide⟩

lemma load_save (df : List Record) :
    load_data (some (save_data df)) =
      some { cols := allCols,
             rows := (df.map recordToRow).map
               (fun row => row.set 4 (toDatetimeCell (row.getD 4 Cell.na))) } := rfl

lemma rowToRecord_norm (r : Record) :
    rowToRecord allCols
      ((recordToRow r).set 4 (toDatetimeCell ((recordToRow r).getD 4 Cell.na))) =
      some r := by
  obtain ⟨sn, ch, py, ex, ld, co, wr⟩ := r
  cases ld <;> rfl

lemma rowsToRecords_saved (df : List Record) :
    rowsToRecords allCols
      ((df.map recordToRow).map
        (fun row => row.set 4 (toDatetimeCell (row.getD 4 Cell.na)))) =
      some df := by
  induction df with
  | nil => rfl
  | cons r rest ih =>
    simp only [List.map_cons, rowsToRecords, rowToRecord_norm, ih]

/-- C8 counterexample: a stored file missing the `set_nr`, `correct` and
`wrong` columns is loaded with `set_nr` backfilled to 0 but with no
`correct` or `wrong` column added - the claim's backfill of `correct` and
`wrong` does not happen. -/
theorem C8_counterexample :
    load_data (some { cols := ["character", "learned_date"],
                      rows := [[Cell.str "a", Cell.date 0]] }) =
      some { cols := ["character", "learned_date", "set_nr"],
             rows := [[Cell.str "a", Cell.date 0, Cell.int 0]] } ∧
    (["character", "learned_date", "set_nr"] : List String).contains "correct" = false ∧
    (["character", "learned_date", "set_nr"] : List String).contains "wrong" = false := by
  decide

/-- C8 (amended): saving then loading the record collection yields
field-for-field equal records (dates normalise to the same calendar day,
integers preserved, absence preserved); on load only a missing `set_nr`
column is backfilled, appended with default 0 in every row. -/
theorem C8_roundtrip_backfill :
    (∀ df : List Record, loadedRecords (some (save_data df)) = some df) ∧
    (∀ t t2 : Table, t.cols.contains "set_nr" = false →
      load_data (some t) = some t2 →
      t2.cols = t.cols ++ ["set_nr"] ∧
      ∀ row ∈ t2.rows, ∃ row0, row = row0 ++ [Cell.int 0]) := by
  constructor
  · intro df
    show (match load_data (some (save_data df)) with
          | none => none
          | some t => rowsToRecords t.cols t.rows) = some df
    rw [load_save df]
    exact rowsToRecords_saved df
  · intro t t2 hset hload
    cases hidx : t.cols.findIdx? (fun c => c == "learned_date") with
    | none =>
      simp only [load_data, hidx] at hload
      exact absurd hload (by simp)
    | some i =>
      simp only [load_data, hidx, hset, Bool.false_eq_true, if_false,
        Option.some.injEq] at hload
      subst hload
      refine ⟨rfl, fun row hrow => ?_⟩
      obtain ⟨row0, -, rfl⟩ := List.mem_map.1 hrow
      exact ⟨_, rfl⟩

/-- C8 witness: a two-record collection (one record with a date, one
without) round-trips through save and load; a table stored without a
`set_nr` column gains it, with value 0, on load. -/
theorem C8_witness :
    loadedRecords (some (save_data [sampleDue, sampleNoDate])) =
      some [sampleDue, sampleNoDate] ∧
    ((["character", "learned_date", "set_nr"] : List String) =
        ["character", "learned_date"] ++ ["set_nr"] ∧
      ∀ row ∈ ({ cols := ["character", "learned_date", "set_nr"],
                 rows := [[Cell.str "a", Cell.date 0, Cell.int 0]] } : Table).rows,
        ∃ row0, row = row0 ++ [Cell.int 0]) :=
  ⟨C8_roundtrip_backfill.1 [sampleDue, sampleNoDate],
   C8_roundtrip_backfill.2
     { cols := ["character", "learned_date"],
       rows := [[Cell.str "a", Cell.date 0]] }
     { cols := ["character", "learned_date", "set_nr"],
       rows := [[Cell.str "a", Cell.date 0, Cell.int 0]] }
     (by decide) (by decide)⟩

/-- C9: an absent storage file loads as the empty collection with the seven
expected columns, and no error. -/
theorem C9_load_missing_file :
    load_data none =
      some { cols := ["set_nr", "character", "pinyin", "example",
                      "learned_date", "correct", "wrong"],
             rows := [] } := rfl

end LearnChinese
